import Mathlib

/-!
Shallow embedding of the `throbber` crate (src/src/lib.rs).

The crate has two sides:

* the `Throbber` control handle (caller's thread): builder fields plus an
  `anim : Option<ThrobberAnim>` link to the worker; its methods send
  `ThrobberSignal` values over an mpsc channel and unpark the worker,
  unwrapping every `send` result;
* the worker loop `animation_thread`: local state
  `(msg, frames, interval, play_anim, frame)`, a `try_recv` loop that
  handles each queued signal and `continue`s, and — when the queue is
  empty — either parks (when `play_anim == false`) or renders one frame and
  advances `frame` by one modulo `frames.len()`.

Rust `Duration` is modelled as a `Nat` (milliseconds), `&'static [&'static str]`
as `List String`, and stdout writes as the exact `String`s printed.
A caller-side `panic!` (from `.unwrap()` on a failed `send`, i.e. the worker
already exited and dropped the receiver) is modelled by `OpResult.panicked`;
a worker-side out-of-bounds index `frames[frame]` is `TickOutcome.panicked`.
-/

/-- `|   /   -   \` (constant `ROTATE_F` in lib.rs). -/
def ROTATE_F : List String := ["|", "/", "-", "\\"]

/-- `⠋ ⠙ ⠹ ⠸ ⠼ ⠴ ⠦ ⠧ ⠇ ⠏` (constant `DEFAULT_F` in lib.rs), the default frame
table of `Throbber::new`. -/
def DEFAULT_F : List String := ["⠋", "⠙", "⠹", "⠸", "⠼", "⠴", "⠦", "⠧", "⠇", "⠏"]

/-- The signals of `enum ThrobberSignal` sent from the handle to the worker. -/
inductive ThrobberSignal where
  | Start
  | Finish
  | Succ (msg : String)
  | Fail (msg : String)
  | ChMsg (msg : String)
  | ChInt (dur : Nat)
  | ChFrames (frames : List String)
  | End
deriving DecidableEq, Repr

/-- The worker-local state of `animation_thread`: its three arguments plus the
two loop-local mutables `play_anim` and `frame`. -/
structure WorkerState where
  msg : String
  frames : List String
  interval : Nat
  play_anim : Bool
  frame : Nat
deriving DecidableEq, Repr

/-- Initial worker state: `animation_thread` starts with `play_anim = true`
and `frame = 0`, seeded with the handle's message/frames/interval. -/
def initialWorkerState (msg : String) (frames : List String) (interval : Nat) :
    WorkerState :=
  { msg := msg, frames := frames, interval := interval
    play_anim := true, frame := 0 }

/-- One `Ok(signal)` arm of the worker's `match receiver.try_recv()`.
Result: the updated state, the exact strings printed by the arm, and whether
the arm `break`s out of the loop (only `End` does). Every arm ends in
`continue`, so after a signal the worker immediately polls the queue again. -/
def processSignal (st : WorkerState) (sig : ThrobberSignal) :
    WorkerState × List String × Bool :=
  match sig with
  | .Start => ({ st with play_anim := true }, [], false)
  | .Finish => ({ st with play_anim := false }, ["\x1B[2K\r"], false)
  | .Succ succ_msg =>
      ({ st with play_anim := false }, ["\x1B[2K\r✔ " ++ succ_msg ++ "\n"], false)
  | .Fail fail_msg =>
      ({ st with play_anim := false }, ["\x1B[2K\r✖ " ++ fail_msg ++ "\n"], false)
  | .ChMsg new_msg => ({ st with msg := new_msg }, [], false)
  | .ChInt new_dur => ({ st with interval := new_dur }, [], false)
  | .ChFrames new_frames =>
      ({ st with frames := new_frames, frame := 0 }, [], false)
  | .End => (st, ["\x1B[2K\r"], true)

/-- The worker's `try_recv` polling: signals queued on the channel are handled
one at a time (each arm `continue`s back to `try_recv`) until the queue is
empty or an `End` breaks the loop, discarding the rest of the queue.
Result: state after draining, strings printed, and whether the loop exited. -/
def drainQueue : WorkerState → List ThrobberSignal →
    WorkerState × List String × Bool
  | st, [] => (st, [], false)
  | st, sig :: rest =>
    let r := processSignal st sig
    if r.2.2 then (r.1, r.2.1, true)
    else
      let r2 := drainQueue r.1 rest
      (r2.1, r.2.1 ++ r2.2.1, r2.2.2)

/-- Outcome of one pass of the worker loop, from polling the queue to the next
blocking point: the loop exited (`End`), parked (`play_anim == false` with an
empty queue), rendered one frame and slept, or panicked on `frames[frame]`
with the frame table too short (only possible when the table is empty, since
`frame` is otherwise kept below `frames.len()`). -/
inductive TickOutcome where
  | exited (out : List String)
  | parked (st : WorkerState) (out : List String)
  | rendered (glyph : String) (st : WorkerState) (out : List String)
  | panicked (out : List String)
deriving DecidableEq, Repr

/-- One pass of the `animation_thread` loop over the currently queued signals
`queue`: drain the queue; on `End` exit; on an empty queue either park
(suspended) or erase the line, print `"{frames[frame]} {msg}"`, sleep, and
advance `frame = (frame + 1) % frames.len()`. -/
def workerTick (st : WorkerState) (queue : List ThrobberSignal) : TickOutcome :=
  let r := drainQueue st queue
  if r.2.2 then .exited r.2.1
  else if r.1.play_anim = false then .parked r.1 r.2.1
  else
    match r.1.frames[r.1.frame]? with
    | none => .panicked r.2.1
    | some g =>
        .rendered g { r.1 with frame := (r.1.frame + 1) % r.1.frames.length }
          (r.2.1 ++ ["\x1B[2K\r" ++ g ++ " " ++ r.1.msg])

/-- Run `n` render ticks with no commands arriving (`queue = []` each pass),
collecting the glyph rendered at each tick; `none` as soon as a pass does not
render (parks, exits or panics). -/
def runRender : Nat → WorkerState → Option (List String × WorkerState)
  | 0, st => some ([], st)
  | n + 1, st =>
    match workerTick st [] with
    | .rendered g st' _ =>
      match runRender n st' with
      | some (gs, stf) => some (g :: gs, stf)
      | none => none
    | _ => none

/-- The `Throbber` handle struct. `anim : Bool` stands for
`anim.is_some()` of the Rust field `anim : Option<ThrobberAnim>`
(the `ThrobberAnim` payload — thread handle and channel sender — lives
outside the state; sends and unparks appear as `HandleEffect`s). -/
structure Throbber where
  anim : Bool
  message : String
  interval : Nat
  frames : List String
deriving DecidableEq, Repr

/-- `Throbber::new()`: no worker, empty message, 200 ms interval, `DEFAULT_F`. -/
def Throbber.new : Throbber :=
  { anim := false, message := "", interval := 200, frames := DEFAULT_F }

/-- Observable actions a handle method performs: enqueue a signal, unpark the
worker thread, spawn the worker (`thread::spawn(animation_thread...)`) with
its seed arguments, print directly on the caller's thread, or join the
worker. -/
inductive HandleEffect where
  | send (sig : ThrobberSignal)
  | unpark
  | spawn (msg : String) (frames : List String) (interval : Nat)
  | print (s : String)
  | join
deriving DecidableEq, Repr

/-- Result of a handle method: either it panicked (`.unwrap()` on an `Err`
from `send`, which happens exactly when the worker has already exited and
dropped the receiver), or it returned normally with the updated handle.
Either way the effects actually performed are listed in order; a failed
`send` delivers nothing, so the panic case lists no effects. -/
inductive OpResult where
  | panicked (effects : List HandleEffect)
  | ok (t : Throbber) (effects : List HandleEffect)
deriving DecidableEq, Repr

/-- `Throbber::change_message`. `chOpen` says whether the worker-side receiver
is still alive, i.e. whether `send` succeeds. -/
def change_message (t : Throbber) (chOpen : Bool) (msg : String) : OpResult :=
  if t.anim then
    if chOpen then
      .ok { t with message := msg } [.send (.ChMsg msg), .unpark]
    else .panicked []
  else .ok { t with message := msg } []

/-- `Throbber::change_interval`. -/
def change_interval (t : Throbber) (chOpen : Bool) (interval : Nat) : OpResult :=
  if t.anim then
    if chOpen then
      .ok { t with interval := interval } [.send (.ChInt interval), .unpark]
    else .panicked []
  else .ok { t with interval := interval } []

/-- `Throbber::change_frames`. Note the source performs no validation of
`frames` whatsoever: whatever slice is passed is sent to the worker and
stored in the handle. -/
def change_frames (t : Throbber) (chOpen : Bool) (frames : List String) :
    OpResult :=
  if t.anim then
    if chOpen then
      .ok { t with frames := frames } [.send (.ChFrames frames), .unpark]
    else .panicked []
  else .ok { t with frames := frames } []

/-- `Throbber::start`: if a worker exists, send `Start` and unpark it;
otherwise spawn `animation_thread` seeded with the current configuration. -/
def start (t : Throbber) (chOpen : Bool) : OpResult :=
  if t.anim then
    if chOpen then .ok t [.send .Start, .unpark]
    else .panicked []
  else
    .ok { t with anim := true } [.spawn t.message t.frames t.interval]

/-- `Throbber::finish`: send `Finish` and unpark if a worker exists, else do
nothing. -/
def finish (t : Throbber) (chOpen : Bool) : OpResult :=
  if t.anim then
    if chOpen then .ok t [.send .Finish, .unpark]
    else .panicked []
  else .ok t []

/-- `Throbber::success`: send `Succ msg` if a worker exists, else print the
success line synchronously on the caller's thread (`println!` adds the
newline). -/
def success (t : Throbber) (chOpen : Bool) (msg : String) : OpResult :=
  if t.anim then
    if chOpen then .ok t [.send (.Succ msg), .unpark]
    else .panicked []
  else .ok t [.print ("\x1B[2K\r✔ " ++ msg ++ "\n")]

/-- `Throbber::fail`: send `Fail msg` if a worker exists, else print the fail
line synchronously on the caller's thread. -/
def fail (t : Throbber) (chOpen : Bool) (msg : String) : OpResult :=
  if t.anim then
    if chOpen then .ok t [.send (.Fail msg), .unpark]
    else .panicked []
  else .ok t [.print ("\x1B[2K\r✖ " ++ msg ++ "\n")]

/-- `Throbber::end`: `self.anim.take()` — if a worker exists, send `End`,
unpark, and join it, leaving `anim = None`; otherwise do nothing. -/
def end_ (t : Throbber) (chOpen : Bool) : OpResult :=
  if t.anim then
    if chOpen then
      .ok { t with anim := false } [.send .End, .unpark, .join]
    else .panicked []
  else .ok t []

example : workerTick (initialWorkerState "work" ROTATE_F 10) [] =
    .rendered "|" { initialWorkerState "work" ROTATE_F 10 with frame := 1 }
      ["\x1B[2K\r| work"] := by decide

example : runRender 6 (initialWorkerState "work" ROTATE_F 10) =
    some (["|", "/", "-", "\\", "|", "/"],
      { initialWorkerState "work" ROTATE_F 10 with frame := 2 }) := by decide

lemma getD_eq_getElem (l : List String) (n : Nat) (h : n < l.length) :
    l.getD n "" = l[n] := by
  rw [List.getD_eq_getElem?_getD, List.getElem?_eq_getElem h]; rfl

lemma workerTick_nil_of_running (st : WorkerState) (h : st.play_anim = true)
    (hf : st.frame < st.frames.length) :
    workerTick st [] =
      .rendered (st.frames.getD st.frame "")
        { st with frame := (st.frame + 1) % st.frames.length }
        ["\x1B[2K\r" ++ st.frames.getD st.frame "" ++ " " ++ st.msg] := by
  have hg : st.frames[st.frame]? = some st.frames[st.frame] :=
    List.getElem?_eq_getElem hf
  have hd : st.frames.getD st.frame "" = st.frames[st.frame] :=
    getD_eq_getElem _ _ hf
  simp [workerTick, drainQueue, h, hg, hd]

lemma runRender_spec (n : Nat) :
    ∀ st : WorkerState, st.play_anim = true → st.frame < st.frames.length →
    runRender n st =
      some ((List.range n).map
          (fun k => st.frames.getD ((st.frame + k) % st.frames.length) ""),
        { st with frame := (st.frame + n) % st.frames.length }) := by
  induction n with
  | zero =>
    intro st h hf
    simp [runRender, Nat.mod_eq_of_lt hf]
  | succ n ih =>
    intro st h hf
    have hlen : 0 < st.frames.length := Nat.lt_of_le_of_lt (Nat.zero_le _) hf
    have hf' : (st.frame + 1) % st.frames.length < st.frames.length :=
      Nat.mod_lt _ hlen
    have hstep := workerTick_nil_of_running st h hf
    have hih := ih { st with frame := (st.frame + 1) % st.frames.length } h hf'
    simp only [runRender, hstep, hih]
    refine congrArg some (congrArg₂ Prod.mk ?_ ?_)
    · rw [List.range_succ_eq_map, List.map_cons, List.map_map]
      congr 1
      · rw [Nat.add_zero, Nat.mod_eq_of_lt hf]
      · apply List.map_congr_left
        intro k _
        simp only [Function.comp_apply, Nat.mod_add_mod]
        congr 2
        omega
    · congr 1
      rw [Nat.mod_add_mod]
      congr 1
      omega

/-- C2: with a non-empty frame table `F` loaded and no commands arriving, `N`
consecutive render ticks while RUNNING render the glyphs
`F[0 % len F], F[1 % len F], ..., F[(N-1) % len F]`: the worker renders
`frames[frame]` and then advances `frame` to `(frame + 1) % frames.len()`
each tick, cyclically and order-preservingly. -/
theorem render_sequence_cyclic (m : String) (F : List String) (iv N : Nat)
    (hF : F ≠ []) :
    runRender N (initialWorkerState m F iv) =
      some ((List.range N).map (fun k => F.getD (k % F.length) ""),
        { initialWorkerState m F iv with frame := N % F.length }) := by
  have hlen : 0 < F.length := List.length_pos.mpr hF
  have h := runRender_spec N (initialWorkerState m F iv) rfl hlen
  simpa [initialWorkerState] using h

theorem render_sequence_cyclic_witness :
    ROTATE_F ≠ [] ∧
    runRender 6 (initialWorkerState "work" ROTATE_F 10) =
      some ((List.range 6).map (fun k => ROTATE_F.getD (k % ROTATE_F.length) ""),
        { initialWorkerState "work" ROTATE_F 10 with frame := 6 % ROTATE_F.length }) :=
  ⟨by decide, render_sequence_cyclic "work" ROTATE_F 10 6 (by decide)⟩

lemma processSignal_not_end_no_exit (st : WorkerState) (sig : ThrobberSignal)
    (h : sig ≠ .End) : (processSignal st sig).2.2 = false := by
  cases sig <;> simp_all [processSignal]

lemma drainQueue_cons (st : WorkerState) (sig : ThrobberSignal)
    (rest : List ThrobberSignal) :
    drainQueue st (sig :: rest) =
      if (processSignal st sig).2.2 then
        ((processSignal st sig).1, (processSignal st sig).2.1, true)
      else
        ((drainQueue (processSignal st sig).1 rest).1,
         (processSignal st sig).2.1 ++ (drainQueue (processSignal st sig).1 rest).2.1,
         (drainQueue (processSignal st sig).1 rest).2.2) := rfl

lemma drainQueue_chmsg (ms : List String) :
    ∀ (st : WorkerState) (m : String),
    drainQueue st ((m :: ms).map .ChMsg)
      = ({ st with msg := ms.getLastD m }, [], false) := by
  induction ms with
  | nil => intro st m; rfl
  | cons m2 ms2 ih =>
    intro st m
    have h0 : drainQueue st ((m :: m2 :: ms2).map .ChMsg)
        = drainQueue { st with msg := m } ((m2 :: ms2).map .ChMsg) := rfl
    rw [h0, ih { st with msg := m } m2, List.getLastD_cons]

lemma drainQueue_append_end (pre : List ThrobberSignal) :
    ∀ (st : WorkerState) (rest : List ThrobberSignal), ThrobberSignal.End ∉ pre →
    drainQueue st (pre ++ .End :: rest)
      = ((drainQueue st pre).1, (drainQueue st pre).2.1 ++ ["\x1B[2K\r"], true) := by
  induction pre with
  | nil =>
    intro st rest _
    simp [drainQueue_cons, processSignal, drainQueue]
  | cons s pre2 ih =>
    intro st rest h
    have hs : s ≠ .End := fun e => h (by rw [e]; exact List.mem_cons_self _ _)
    have hmem : ThrobberSignal.End ∉ pre2 := fun hm => h (List.mem_cons_of_mem _ hm)
    have hex := processSignal_not_end_no_exit st s hs
    rw [List.cons_append, drainQueue_cons, drainQueue_cons,
      ih (processSignal st s).1 rest hmem]
    simp [hex]

/-- C4: on each loop pass the worker drains all queued commands before
deciding whether to render — a burst of `ChMsg` commands collapses to the
last message, the tick behaving exactly like a tick whose message was already
that value — and a dequeued `End` exits the loop at once: the outcome of the
pass is `exited` and is independent of the commands still queued behind the
`End`, which are discarded. -/
theorem drain_all_then_render (st st2 : WorkerState) (m : String)
    (ms : List String) (pre rest : List ThrobberSignal)
    (hpre : ThrobberSignal.End ∉ pre) :
    workerTick st ((m :: ms).map .ChMsg)
      = workerTick { st with msg := ms.getLastD m } []
    ∧ workerTick st2 (pre ++ .End :: rest)
      = TickOutcome.exited ((drainQueue st2 pre).2.1 ++ ["\x1B[2K\r"]) := by
  constructor
  · have h1 : drainQueue st ((m :: ms).map .ChMsg)
        = ({ st with msg := ms.getLastD m }, [], false) := drainQueue_chmsg ms st m
    have h2 : drainQueue { st with msg := ms.getLastD m } ([] : List ThrobberSignal)
        = ({ st with msg := ms.getLastD m }, [], false) := rfl
    simp only [workerTick, h1, h2]
  · have h3 := drainQueue_append_end pre st2 rest hpre
    simp [workerTick, h3]

theorem drain_all_then_render_witness :
    ThrobberSignal.End ∉ [ThrobberSignal.ChMsg "a"]
    ∧ workerTick (initialWorkerState "m" ROTATE_F 200)
          (("x" :: ["y", "z"]).map .ChMsg)
        = workerTick { initialWorkerState "m" ROTATE_F 200 with
            msg := ["y", "z"].getLastD "x" } []
    ∧ workerTick (initialWorkerState "m" ROTATE_F 200)
          ([ThrobberSignal.ChMsg "a"] ++ .End :: [ThrobberSignal.Start])
        = TickOutcome.exited
            ((drainQueue (initialWorkerState "m" ROTATE_F 200)
                [ThrobberSignal.ChMsg "a"]).2.1 ++ ["\x1B[2K\r"]) :=
  ⟨by decide,
   drain_all_then_render (initialWorkerState "m" ROTATE_F 200)
     (initialWorkerState "m" ROTATE_F 200) "x" ["y", "z"]
     [ThrobberSignal.ChMsg "a"] [ThrobberSignal.Start] (by decide)⟩

/-- C1 counterexample: on a started handle, `change_frames` with the empty
table is not rejected — the crate has no `InvalidConfig` (or any) error: the
call returns normally, enqueues `ChFrames []`, and stores the empty table in
the handle; the worker then installs the empty table in place of the previous
one, and the next render tick indexes `frames[frame]` out of bounds. -/
theorem change_frames_empty_accepted_cex :
    change_frames
        { anim := true, message := "m", interval := 200, frames := ROTATE_F }
        true []
      = OpResult.ok
          { anim := true, message := "m", interval := 200, frames := [] }
          [HandleEffect.send (ThrobberSignal.ChFrames []), HandleEffect.unpark]
    ∧ processSignal
        { msg := "m", frames := ROTATE_F, interval := 200,
          play_anim := true, frame := 2 }
        (ThrobberSignal.ChFrames [])
      = ({ msg := "m", frames := [], interval := 200,
            play_anim := true, frame := 0 }, [], false)
    ∧ workerTick
        { msg := "m", frames := [], interval := 200,
          play_anim := true, frame := 0 } []
      = TickOutcome.panicked [] := by
  refine ⟨rfl, rfl, rfl⟩

/-- C1 amended: `change_frames` with an empty table is accepted unchecked:
it sends `ChFrames []` to the worker and installs the empty table in the
handle; the worker replaces the previous table with the empty one (resetting
`frame` to 0), and a subsequent render tick while RUNNING panics on the
out-of-bounds index `frames[frame]` instead of rendering. -/
theorem change_frames_empty_installs (t : Throbber) (st st2 : WorkerState)
    (h : t.anim = true) (h1 : st2.play_anim = true) (h2 : st2.frames = []) :
    change_frames t true []
      = OpResult.ok { t with frames := ([] : List String) }
          [HandleEffect.send (ThrobberSignal.ChFrames []), HandleEffect.unpark]
    ∧ processSignal st (ThrobberSignal.ChFrames [])
      = ({ st with frames := [], frame := 0 }, [], false)
    ∧ workerTick st2 [] = TickOutcome.panicked [] := by
  refine ⟨by simp [change_frames, h], rfl, ?_⟩
  simp [workerTick, drainQueue, h1, h2]

theorem change_frames_empty_installs_witness :
    (({ anim := true, message := "m", interval := 200,
        frames := ROTATE_F } : Throbber).anim = true
      ∧ ({ msg := "m", frames := [], interval := 200, play_anim := true,
            frame := 0 } : WorkerState).play_anim = true
      ∧ ({ msg := "m", frames := [], interval := 200, play_anim := true,
            frame := 0 } : WorkerState).frames = [])
    ∧ (change_frames
          { anim := true, message := "m", interval := 200, frames := ROTATE_F }
          true []
        = OpResult.ok
            { anim := true, message := "m", interval := 200,
              frames := ([] : List String) }
            [HandleEffect.send (ThrobberSignal.ChFrames []), HandleEffect.unpark]
      ∧ processSignal
          { msg := "x", frames := ROTATE_F, interval := 100,
            play_anim := true, frame := 3 }
          (ThrobberSignal.ChFrames [])
        = ({ msg := "x", frames := [], interval := 100,
              play_anim := true, frame := 0 }, [], false)
      ∧ workerTick
          { msg := "m", frames := [], interval := 200, play_anim := true,
            frame := 0 } []
        = TickOutcome.panicked []) :=
  ⟨⟨rfl, rfl, rfl⟩,
   change_frames_empty_installs
     { anim := true, message := "m", interval := 200, frames := ROTATE_F }
     { msg := "x", frames := ROTATE_F, interval := 100, play_anim := true,
       frame := 3 }
     { msg := "m", frames := [], interval := 200, play_anim := true,
       frame := 0 }
     rfl rfl rfl⟩

/-- C3 counterexample: with a worker link present but the worker already
exited (receiver dropped, so `send` fails), `change_message` is not a silent
no-op — the `.unwrap()` on the failed `send` panics — and `end` panics on the
closed channel for the same reason instead of joining quietly. -/
theorem send_after_worker_exit_panics_cex :
    change_message
        { anim := true, message := "m", interval := 200, frames := ROTATE_F }
        false "x"
      = OpResult.panicked []
    ∧ end_
        { anim := true, message := "m", interval := 200, frames := ROTATE_F }
        false
      = OpResult.panicked [] :=
  ⟨rfl, rfl⟩

/-- C3 amended: for every handle whose worker has already exited (the channel
receiver is gone, so `send` returns `Err`), every animation command —
`change_message`, `change_interval`, `change_frames`, `start`, `finish`,
`success`, `fail` — panics on the caller's thread via `.unwrap()`, and
`end` panics the same way on its `send` before reaching the join; none of
them is a silent no-op. -/
theorem send_after_worker_exit_panics (t : Throbber) (m : String) (d : Nat)
    (F : List String) (h : t.anim = true) :
    change_message t false m = OpResult.panicked []
    ∧ change_interval t false d = OpResult.panicked []
    ∧ change_frames t false F = OpResult.panicked []
    ∧ start t false = OpResult.panicked []
    ∧ finish t false = OpResult.panicked []
    ∧ success t false m = OpResult.panicked []
    ∧ fail t false m = OpResult.panicked []
    ∧ end_ t false = OpResult.panicked [] := by
  simp [change_message, change_interval, change_frames, start, finish,
    success, fail, end_, h]

theorem send_after_worker_exit_panics_witness :
    (({ anim := true, message := "", interval := 50,
        frames := DEFAULT_F } : Throbber).anim = true)
    ∧ (change_message
          { anim := true, message := "", interval := 50, frames := DEFAULT_F }
          false "x"
        = OpResult.panicked []
      ∧ change_interval
          { anim := true, message := "", interval := 50, frames := DEFAULT_F }
          false 7
        = OpResult.panicked []
      ∧ change_frames
          { anim := true, message := "", interval := 50, frames := DEFAULT_F }
          false ROTATE_F
        = OpResult.panicked []
      ∧ start
          { anim := true, message := "", interval := 50, frames := DEFAULT_F }
          false
        = OpResult.panicked []
      ∧ finish
          { anim := true, message := "", interval := 50, frames := DEFAULT_F }
          false
        = OpResult.panicked []
      ∧ success
          { anim := true, message := "", interval := 50, frames := DEFAULT_F }
          false "x"
        = OpResult.panicked []
      ∧ fail
          { anim := true, message := "", interval := 50, frames := DEFAULT_F }
          false "x"
        = OpResult.panicked []
      ∧ end_
          { anim := true, message := "", interval := 50, frames := DEFAULT_F }
          false
        = OpResult.panicked []) :=
  ⟨rfl,
   send_after_worker_exit_panics
     { anim := true, message := "", interval := 50, frames := DEFAULT_F }
     "x" 7 ROTATE_F rfl⟩

/-- C5: `start` called twice without an intervening stop is idempotent — the
first call (no worker yet) spawns the single worker seeded with the current
configuration; the second call, the link now present, performs no spawn and
only enqueues `Start` and unparks, leaving the handle unchanged; and the
worker's `Start` arm merely re-asserts `play_anim = true`, leaving the frame
index (and everything else) untouched, so the animation continues from
wherever it was. -/
theorem start_twice_idempotent (t0 : Throbber) (st : WorkerState)
    (h : t0.anim = false) :
    start t0 true
      = OpResult.ok { t0 with anim := true }
          [HandleEffect.spawn t0.message t0.frames t0.interval]
    ∧ start { t0 with anim := true } true
      = OpResult.ok { t0 with anim := true }
          [HandleEffect.send ThrobberSignal.Start, HandleEffect.unpark]
    ∧ processSignal st ThrobberSignal.Start
      = ({ st with play_anim := true }, [], false) := by
  refine ⟨by simp [start, h], rfl, rfl⟩

theorem start_twice_idempotent_witness :
    (Throbber.new.anim = false)
    ∧ (start Throbber.new true
        = OpResult.ok { Throbber.new with anim := true }
            [HandleEffect.spawn Throbber.new.message Throbber.new.frames
              Throbber.new.interval]
      ∧ start { Throbber.new with anim := true } true
        = OpResult.ok { Throbber.new with anim := true }
            [HandleEffect.send ThrobberSignal.Start, HandleEffect.unpark]
      ∧ processSignal
          { msg := "w", frames := ROTATE_F, interval := 10,
            play_anim := false, frame := 2 }
          ThrobberSignal.Start
        = ({ msg := "w", frames := ROTATE_F, interval := 10,
              play_anim := true, frame := 2 }, [], false)) :=
  ⟨rfl,
   start_twice_idempotent Throbber.new
     { msg := "w", frames := ROTATE_F, interval := 10, play_anim := false,
       frame := 2 }
     rfl⟩

/-- C6: dequeuing `Succ msg` or `Fail msg` erases the current line and prints
exactly one status line — the clear-line escape, `✔ ` resp. `✖ `, the exact
message text, and a trailing line break — and sets `play_anim` to false, after
which a pass over an empty queue parks instead of rendering, so no further
frames appear until a later `Start`. -/
theorem succeed_fail_status_line (st : WorkerState) (m : String) :
    processSignal st (ThrobberSignal.Succ m)
      = ({ st with play_anim := false }, ["\x1B[2K\r✔ " ++ m ++ "\n"], false)
    ∧ processSignal st (ThrobberSignal.Fail m)
      = ({ st with play_anim := false }, ["\x1B[2K\r✖ " ++ m ++ "\n"], false)
    ∧ workerTick { st with play_anim := false } []
      = TickOutcome.parked { st with play_anim := false } [] :=
  ⟨rfl, rfl, rfl⟩

/-- C7: when the worker processes `ChFrames` with a (non-empty) new table
while RUNNING, it installs the table and resets the frame index to 0, so the
next pass renders glyph 0 of the new table whatever the prior index was, and
that access is in bounds. -/
theorem chframes_resets_index (st : WorkerState) (g : String)
    (gs : List String) (h : st.play_anim = true) :
    processSignal st (ThrobberSignal.ChFrames (g :: gs))
      = ({ st with frames := g :: gs, frame := 0 }, [], false)
    ∧ workerTick { st with frames := g :: gs, frame := 0 } []
      = TickOutcome.rendered g
          { st with frames := g :: gs, frame := 1 % (g :: gs).length }
          ["\x1B[2K\r" ++ g ++ " " ++ st.msg]
    ∧ 0 < (g :: gs).length := by
  refine ⟨rfl, ?_, by simp⟩
  simp [workerTick, drainQueue, h]

theorem chframes_resets_index_witness :
    (({ msg := "m", frames := DEFAULT_F, interval := 200, play_anim := true,
        frame := 7 } : WorkerState).play_anim = true)
    ∧ (processSignal
          { msg := "m", frames := DEFAULT_F, interval := 200,
            play_anim := true, frame := 7 }
          (ThrobberSignal.ChFrames ("|" :: ["/", "-", "\\"]))
        = ({ msg := "m", frames := "|" :: ["/", "-", "\\"], interval := 200,
              play_anim := true, frame := 0 }, [], false)
      ∧ workerTick
          { msg := "m", frames := "|" :: ["/", "-", "\\"], interval := 200,
            play_anim := true, frame := 0 } []
        = TickOutcome.rendered "|"
            { msg := "m", frames := "|" :: ["/", "-", "\\"], interval := 200,
              play_anim := true,
              frame := 1 % ("|" :: ["/", "-", "\\"]).length }
            ["\x1B[2K\r" ++ "|" ++ " " ++ "m"]
      ∧ 0 < ("|" :: ["/", "-", "\\"]).length) :=
  ⟨rfl,
   chframes_resets_index
     { msg := "m", frames := DEFAULT_F, interval := 200, play_anim := true,
       frame := 7 }
     "|" ["/", "-", "\\"] rfl⟩

/-- C8: on a handle that has never been started (`anim = None`), `success`
and `fail` print the `✔ msg` / `✖ msg` status line synchronously on the
caller's thread (the same bytes the worker would print), the handle is
returned unchanged — in particular no worker is spawned — and this holds
whatever the state of any channel. -/
theorem success_fail_before_start (t : Throbber) (ch : Bool) (m : String)
    (h : t.anim = false) :
    success t ch m
      = OpResult.ok t [HandleEffect.print ("\x1B[2K\r✔ " ++ m ++ "\n")]
    ∧ fail t ch m
      = OpResult.ok t [HandleEffect.print ("\x1B[2K\r✖ " ++ m ++ "\n")] := by
  constructor <;> simp [success, fail, h]

theorem success_fail_before_start_witness :
    (Throbber.new.anim = false)
    ∧ (success Throbber.new false "done"
        = OpResult.ok Throbber.new
            [HandleEffect.print ("\x1B[2K\r✔ " ++ "done" ++ "\n")]
      ∧ fail Throbber.new false "done"
        = OpResult.ok Throbber.new
            [HandleEffect.print ("\x1B[2K\r✖ " ++ "done" ++ "\n")]) :=
  ⟨rfl, success_fail_before_start Throbber.new false "done" rfl⟩

/-- C9: `end` on a live link sends `End`, unparks the worker and joins it,
leaving `anim = None`; calling `end` again on the resulting handle performs
no effect at all (no send, no join, no panic), whatever the channel state —
the second call is observably a no-op because the link is already gone. -/
theorem end_twice_noop (t : Throbber) (ch2 : Bool) (h : t.anim = true) :
    end_ t true
      = OpResult.ok { t with anim := false }
          [HandleEffect.send ThrobberSignal.End, HandleEffect.unpark,
            HandleEffect.join]
    ∧ end_ { t with anim := false } ch2
      = OpResult.ok { t with anim := false } [] := by
  refine ⟨by simp [end_, h], rfl⟩

theorem end_twice_noop_witness :
    (({ anim := true, message := "m", interval := 200,
        frames := DEFAULT_F } : Throbber).anim = true)
    ∧ (end_
          { anim := true, message := "m", interval := 200,
            frames := DEFAULT_F }
          true
        = OpResult.ok
            { anim := false, message := "m", interval := 200,
              frames := DEFAULT_F }
            [HandleEffect.send ThrobberSignal.End, HandleEffect.unpark,
              HandleEffect.join]
      ∧ end_
          { anim := false, message := "m", interval := 200,
            frames := DEFAULT_F }
          false
        = OpResult.ok
            { anim := false, message := "m", interval := 200,
              frames := DEFAULT_F } []) :=
  ⟨rfl,
   end_twice_noop
     { anim := true, message := "m", interval := 200, frames := DEFAULT_F }
     false rfl⟩

/-- C10: `Finish` leaves the worker's frame index unchanged, a `Start` after
a `Finish` restores `play_anim` without touching the index (so a resumed
animation continues from where it was suspended), every signal other than a
`ChFrames` leaves the index unchanged, and `ChFrames` resets it to 0. -/
theorem only_chframes_resets_frame (st : WorkerState) (sig : ThrobberSignal)
    (F : List String) (h : ∀ G, sig ≠ ThrobberSignal.ChFrames G) :
    (processSignal st ThrobberSignal.Finish).1.frame = st.frame
    ∧ (processSignal (processSignal st ThrobberSignal.Finish).1
        ThrobberSignal.Start).1 = { st with play_anim := true }
    ∧ (processSignal st sig).1.frame = st.frame
    ∧ (processSignal st (ThrobberSignal.ChFrames F)).1.frame = 0 := by
  refine ⟨rfl, rfl, ?_, rfl⟩
  cases sig <;> first | rfl | exact absurd rfl (h _)

theorem only_chframes_resets_frame_witness :
    (∀ G, ThrobberSignal.Finish ≠ ThrobberSignal.ChFrames G)
    ∧ ((processSignal
          { msg := "m", frames := ROTATE_F, interval := 10, play_anim := true,
            frame := 3 } ThrobberSignal.Finish).1.frame
        = ({ msg := "m", frames := ROTATE_F, interval := 10,
              play_anim := true, frame := 3 } : WorkerState).frame
      ∧ (processSignal
          (processSignal
            { msg := "m", frames := ROTATE_F, interval := 10,
              play_anim := true, frame := 3 } ThrobberSignal.Finish).1
          ThrobberSignal.Start).1
        = { msg := "m", frames := ROTATE_F, interval := 10, play_anim := true,
            frame := 3 }
      ∧ (processSignal
          { msg := "m", frames := ROTATE_F, interval := 10, play_anim := true,
            frame := 3 } ThrobberSignal.Finish).1.frame
        = ({ msg := "m", frames := ROTATE_F, interval := 10,
              play_anim := true, frame := 3 } : WorkerState).frame
      ∧ (processSignal
          { msg := "m", frames := ROTATE_F, interval := 10, play_anim := true,
            frame := 3 } (ThrobberSignal.ChFrames DEFAULT_F)).1.frame = 0) :=
  ⟨fun G h => ThrobberSignal.noConfusion h,
   only_chframes_resets_frame
     { msg := "m", frames := ROTATE_F, interval := 10, play_anim := true,
       frame := 3 }
     ThrobberSignal.Finish DEFAULT_F (fun G h => by cases h)⟩
